import Mathlib

/-
  Verification of the hyperpro sticker app core: cart, batch generator,
  font sizing, product search and ZPL escaping.

  Shallow embedding conventions:
  * A spreadsheet row is a record of its lettered columns; an absent cell is
    the empty string (JS `row.X || ''` is the identity on that model).
  * JS quantities are modelled as naturals (`Math.floor` is the identity).
  * Code that would throw a TypeError (object lookup on a missing key
    followed by a member access) is modelled with `Option`, `none` being the
    crash.
  * Listener callbacks are modelled as abstract actions: a registration id
    plus a flag saying whether invoking the callback raises an error.
-/

/-- One spreadsheet row (`rowData`).  Fields are the lettered columns the
core reads; an absent cell is represented by the empty string. -/
structure Row where
  C : String := ""
  D : String := ""
  E : String := ""
  F : String := ""
  G : String := ""
  H : String := ""
  I : String := ""
  J : String := ""
  K : String := ""
  L : String := ""
  M : String := ""
  N : String := ""
  P : String := ""
  Q : String := ""
  R : String := ""
  S : String := ""
  T : String := ""
  V : String := ""
deriving Repr, DecidableEq

/-- JS `s || d` for strings: the empty string is falsy. -/
def jsOr (s d : String) : String := if s = "" then d else s

/-- JS `s.toUpperCase()` (character-wise, as the code's inputs are ASCII). -/
def jsToUpper (s : String) : String := String.mk (s.toList.map Char.toUpper)

/-- JS `s.toLowerCase()` (character-wise, as the code's inputs are ASCII). -/
def jsToLower (s : String) : String := String.mk (s.toList.map Char.toLower)

/-- JS `s.trim()`: strip leading and trailing whitespace. -/
def jsTrim (s : String) : String :=
  String.mk ((s.toList.dropWhile Char.isWhitespace).reverse.dropWhile
    Char.isWhitespace).reverse

/-- `startsWith` on character lists (the anchored step of a JS substring
scan). -/
def startsWithChars : List Char → List Char → Bool
  | _, [] => true
  | [], _ :: _ => false
  | h :: hs, n :: ns => h = n && startsWithChars hs ns

/-- Substring containment on character lists. -/
def containsChars (needle : List Char) : List Char → Bool
  | [] => needle.isEmpty
  | c :: hs => startsWithChars (c :: hs) needle || containsChars needle hs

/-- JS `s.includes(q)`. -/
def stringIncludes (s q : String) : Bool :=
  containsChars q.toList s.toList

/-- Left brace character (ZPL control character). -/
def lbraceChar : Char := Char.ofNat 123

/-- Right brace character (ZPL control character). -/
def rbraceChar : Char := Char.ofNat 125

namespace SecurityUtils

/-- Escaping of one character per the `zplEscapeMap` of
`SecurityUtils.escapeZpl`: each of `^ ~ \ { }` is prefixed with a backslash. -/
def escapeZplChar (c : Char) : List Char :=
  if c = '^' || c = '~' || c = '\\' || c = lbraceChar || c = rbraceChar then
    ['\\', c]
  else [c]

/-- `SecurityUtils.escapeZpl`: escape the ZPL control characters `^ ~ \ { }`
by prefixing each with a backslash. -/
def escapeZpl (s : String) : String :=
  String.mk (s.toList.flatMap escapeZplChar)

/-- `SecurityUtils.validateKitType`: the recognized kit types. -/
def validateKitType (kitType : String) : Bool :=
  kitType == "fork" || kitType == "shock" || kitType == "combi"

/-- Result of `SecurityUtils.validateQuantity` (the warning message is not
modelled). -/
structure QtyCheck where
  valid : Bool
  clamped : Nat
deriving Repr, DecidableEq

/-- `SecurityUtils.validateQuantity`: clamp a quantity into `[1, 99]`.
Quantities are modelled as naturals, on which `Math.floor` is the
identity. -/
def validateQuantity (quantity : Nat) : QtyCheck :=
  let clamped := if quantity < 1 then 1 else if quantity > 99 then 99 else quantity
  { valid := clamped == quantity, clamped := clamped }

/-- `SecurityUtils.validateRowData`: requires at least one product code
(C, D or E), a non-blank brand name (F) and a non-blank model type (G). -/
def validateRowData (rowData : Row) : Bool :=
  (!(rowData.C == "") || !(rowData.D == "") || !(rowData.E == "")) &&
  !((jsTrim rowData.F) == "") &&
  !((jsTrim rowData.G) == "")

end SecurityUtils

/-- The field pattern `if (vars[field]) vars[field] = SecurityUtils.escapeZpl(...)`:
the empty string is falsy, so it is left untouched. -/
def escTruthy (s : String) : String :=
  if s = "" then s else SecurityUtils.escapeZpl s

/-- The variable set produced by `prepareVariables` (both generators build
the same shape: sixteen raw columns, the combined notes, and six computed
font sizes). -/
structure Vars where
  BRAND_NAME : String
  MODEL_TYPE : String
  YEAR : String
  FORK_SPRING : String
  SHOCK_SPRING : String
  FORKCODE : String
  SHOCKCODE : String
  COMBICODE : String
  OIL_TYPE : String
  OIL_LEVEL : String
  FORK_PRELOAD : String
  SHOCK_PRELOAD : String
  FORK_SAG : String
  SHOCK_SAG : String
  FORK_COMPRESSION : String
  SHOCK_COMPRESSION : String
  NOTES : String
  BRAND_FONT_SIZE : Nat
  MODEL_FONT_SIZE : Nat
  KIT_FONT_SIZE : Nat
  BRAND_FONT_SIZE_SMALL : Nat
  MODEL_FONT_SIZE_SMALL : Nat
  NOTES_FONT_SIZE : Nat
deriving Repr, DecidableEq

namespace ZBLGenerator

/-- `ZBLGenerator.calculateBrandFontSize`. -/
def calculateBrandFontSize (text : String) : Nat :=
  let len := text.length
  if len ≤ 25 then 50
  else if len ≤ 40 then 40
  else if len ≤ 60 then 35
  else if len ≤ 80 then 30
  else 25

/-- `ZBLGenerator.calculateModelFontSize`. -/
def calculateModelFontSize (text : String) : Nat :=
  let len := text.length
  if len ≤ 25 then 50
  else if len ≤ 40 then 40
  else if len ≤ 60 then 32
  else if len ≤ 80 then 26
  else if len ≤ 100 then 22
  else if len ≤ 130 then 20
  else 18

/-- `ZBLGenerator.calculateBrandFontSizeSmall`. -/
def calculateBrandFontSizeSmall (text : String) : Nat :=
  let len := text.length
  if len ≤ 20 then 35
  else if len ≤ 30 then 30
  else if len ≤ 50 then 25
  else if len ≤ 70 then 22
  else 18

/-- `ZBLGenerator.calculateModelFontSizeSmall`. -/
def calculateModelFontSizeSmall (text : String) : Nat :=
  let len := text.length
  if len ≤ 20 then 35
  else if len ≤ 30 then 30
  else if len ≤ 50 then 24
  else if len ≤ 70 then 20
  else if len ≤ 90 then 18
  else if len ≤ 120 then 16
  else 14

/-- The kit-info template literal built inside `calculateKitFontSize` from
the three (defaulted) code variables. -/
def kitLine (forkcode shockcode combicode : String) : String :=
  "FORKKIT: " ++ forkcode ++ " --- SHOCKKIT: " ++ shockcode ++
    " --- COMBIKIT: " ++ combicode

/-- `ZBLGenerator.calculateKitFontSize`.  The source passes the whole vars
object and reads its three code fields; the embedding takes the three code
strings directly. -/
def calculateKitFontSize (forkcode shockcode combicode : String) : Nat :=
  let len := (kitLine forkcode shockcode combicode).length
  if len ≤ 40 then 28
  else if len ≤ 60 then 26
  else if len ≤ 80 then 24
  else if len ≤ 100 then 22
  else if len ≤ 120 then 20
  else 18

/-- `ZBLGenerator.calculateNotesFontSize`. -/
def calculateNotesFontSize (text : String) : Nat :=
  let len := text.length
  if len ≤ 80 then 26
  else if len ≤ 120 then 24
  else if len ≤ 160 then 22
  else if len ≤ 200 then 20
  else if len ≤ 250 then 18
  else 16

/-- `ZBLGenerator.combineNotes`. -/
def combineNotes (forkInfo rearInfo : String) : String :=
  let f := jsTrim forkInfo
  let r := jsTrim rearInfo
  if f ≠ "" ∧ r ≠ "" then "F: " ++ f ++ " / R: " ++ r
  else if f ≠ "" then "F: " ++ f
  else if r ≠ "" then "R: " ++ r
  else ""

/-- `ZBLGenerator.prepareVariables`: default the raw columns, combine the
notes, compute every font size from the defaulted unescaped values, and only
then ZPL-escape every (truthy) text field. -/
def prepareVariables (rowData : Row) : Vars :=
  let BRAND_NAME := jsOr rowData.F "N/A"
  let MODEL_TYPE := jsOr rowData.G "N/A"
  let YEAR := jsOr rowData.H "N/A"
  let FORK_SPRING := jsOr rowData.I "N/A"
  let SHOCK_SPRING := jsOr rowData.Q "N/A"
  let FORKCODE := jsOr rowData.C "NONE"
  let SHOCKCODE := jsOr rowData.D "NONE"
  let COMBICODE := jsOr rowData.E "NONE"
  let OIL_TYPE := jsOr rowData.J "N/A"
  let OIL_LEVEL := jsOr rowData.K "N/A"
  let FORK_PRELOAD := jsOr rowData.L "N/A"
  let SHOCK_PRELOAD := jsOr rowData.R "N/A"
  let FORK_SAG := jsOr rowData.M "N/A"
  let SHOCK_SAG := jsOr rowData.S "N/A"
  let FORK_COMPRESSION := jsOr rowData.N "N/A"
  let SHOCK_COMPRESSION := jsOr rowData.T "N/A"
  let NOTES := combineNotes rowData.P rowData.V
  { BRAND_NAME := escTruthy BRAND_NAME
    MODEL_TYPE := escTruthy MODEL_TYPE
    YEAR := escTruthy YEAR
    FORK_SPRING := escTruthy FORK_SPRING
    SHOCK_SPRING := escTruthy SHOCK_SPRING
    FORKCODE := escTruthy FORKCODE
    SHOCKCODE := escTruthy SHOCKCODE
    COMBICODE := escTruthy COMBICODE
    OIL_TYPE := escTruthy OIL_TYPE
    OIL_LEVEL := escTruthy OIL_LEVEL
    FORK_PRELOAD := escTruthy FORK_PRELOAD
    SHOCK_PRELOAD := escTruthy SHOCK_PRELOAD
    FORK_SAG := escTruthy FORK_SAG
    SHOCK_SAG := escTruthy SHOCK_SAG
    FORK_COMPRESSION := escTruthy FORK_COMPRESSION
    SHOCK_COMPRESSION := escTruthy SHOCK_COMPRESSION
    NOTES := escTruthy NOTES
    BRAND_FONT_SIZE := calculateBrandFontSize BRAND_NAME
    MODEL_FONT_SIZE := calculateModelFontSize MODEL_TYPE
    KIT_FONT_SIZE := calculateKitFontSize FORKCODE SHOCKCODE COMBICODE
    BRAND_FONT_SIZE_SMALL := calculateBrandFontSizeSmall BRAND_NAME
    MODEL_FONT_SIZE_SMALL := calculateModelFontSizeSmall MODEL_TYPE
    NOTES_FONT_SIZE := calculateNotesFontSize NOTES }

end ZBLGenerator

/-- Spec-side sizing interpreter, following the spec's words: each role has
an ordered list of `(maxLength, pointSize)` thresholds, checked
least-to-greatest; the first threshold whose `maxLength >= text.length`
wins; if none matches, the last (smallest) size applies. -/
def sizeFor : List (Nat × Nat) → Nat → String → Nat
  | [], deflt, _ => deflt
  | (maxLen, size) :: rest, deflt, text =>
    if text.length ≤ maxLen then size else sizeFor rest deflt text

/-- The per-unit sticker counts of one kit type (`STICKER_RULES` rows). -/
structure StickerRule where
  big : Nat
  smallFork : Nat
  smallShock : Nat
deriving Repr, DecidableEq

/-- The three templates handed to `BatchZBLGenerator`'s constructor. -/
structure Templates where
  big : String
  smallFork : String
  smallShock : String
deriving Repr, DecidableEq

/-- Sticker counts of one cart item (`itemCounts`). -/
structure ItemCounts where
  big : Nat
  smallFork : Nat
  smallShock : Nat
deriving Repr, DecidableEq

/-- Result of `BatchZBLGenerator.generateStickerSet`. -/
structure StickerSet where
  bigZpl : List String
  smallZpl : List String
  itemCounts : ItemCounts
deriving Repr, DecidableEq

/-- Aggregate counts of `BatchZBLGenerator.generateBatch`. -/
structure BatchCounts where
  big : Nat
  smallFork : Nat
  smallShock : Nat
  totalSmall : Nat
  grandTotal : Nat
deriving Repr, DecidableEq

/-- Result of `BatchZBLGenerator.generateBatch`. -/
structure BatchOutput where
  bigZpl : String
  smallZpl : String
  counts : BatchCounts
deriving Repr, DecidableEq

/-- One cart item.  `timestamp: Date.now()` is not modelled (it is never
read by the core). -/
structure CartItem where
  id : Nat := 0
  rowData : Row
  kitType : String
  quantity : Nat
  productCode : String := ""
  productName : String := ""
deriving Repr, DecidableEq

/-- A registered cart listener, abstracted to its registration id and
whether invoking the callback raises an error. -/
structure Listener where
  id : Nat
  throws : Bool
deriving Repr, DecidableEq

/-- The mutable state of a `Cart` instance. -/
structure CartState where
  items : List CartItem
  nextId : Nat
  listeners : List Listener
deriving Repr, DecidableEq

/-- Outcome of one mutating cart operation: the new state, whether a change
happened, the ids of the listeners actually invoked (in invocation order),
and whether a listener error propagated out of the operation. -/
structure MutResult where
  state : CartState
  changed : Bool
  invoked : List Nat
  threw : Bool
deriving Repr, DecidableEq

namespace BatchZBLGenerator

/-- `this.stickerRules` of `BatchZBLGenerator`; a JS object lookup, `none`
for an unrecognized kit type. -/
def stickerRules (kitType : String) : Option StickerRule :=
  if kitType = "fork" then some { big := 1, smallFork := 2, smallShock := 0 }
  else if kitType = "shock" then some { big := 1, smallFork := 0, smallShock := 1 }
  else if kitType = "combi" then some { big := 1, smallFork := 2, smallShock := 1 }
  else none

/-- `BatchZBLGenerator.calculateBrandFontSize` (duplicated from
`ZBLGenerator` in the source). -/
def calculateBrandFontSize (text : String) : Nat :=
  let len := text.length
  if len ≤ 25 then 50
  else if len ≤ 40 then 40
  else if len ≤ 60 then 35
  else if len ≤ 80 then 30
  else 25

/-- `BatchZBLGenerator.calculateModelFontSize`. -/
def calculateModelFontSize (text : String) : Nat :=
  let len := text.length
  if len ≤ 25 then 50
  else if len ≤ 40 then 40
  else if len ≤ 60 then 32
  else if len ≤ 80 then 26
  else if len ≤ 100 then 22
  else if len ≤ 130 then 20
  else 18

/-- `BatchZBLGenerator.calculateBrandFontSizeSmall`. -/
def calculateBrandFontSizeSmall (text : String) : Nat :=
  let len := text.length
  if len ≤ 20 then 35
  else if len ≤ 30 then 30
  else if len ≤ 50 then 25
  else if len ≤ 70 then 22
  else 18

/-- `BatchZBLGenerator.calculateModelFontSizeSmall`. -/
def calculateModelFontSizeSmall (text : String) : Nat :=
  let len := text.length
  if len ≤ 20 then 35
  else if len ≤ 30 then 30
  else if len ≤ 50 then 24
  else if len ≤ 70 then 20
  else if len ≤ 90 then 18
  else if len ≤ 120 then 16
  else 14

/-- The kit-info template literal of `BatchZBLGenerator.calculateKitFontSize`. -/
def kitLine (forkcode shockcode combicode : String) : String :=
  "FORKKIT: " ++ forkcode ++ " --- SHOCKKIT: " ++ shockcode ++
    " --- COMBIKIT: " ++ combicode

/-- `BatchZBLGenerator.calculateKitFontSize` (takes the three code strings;
the source reads them off the vars object). -/
def calculateKitFontSize (forkcode shockcode combicode : String) : Nat :=
  let len := (kitLine forkcode shockcode combicode).length
  if len ≤ 40 then 28
  else if len ≤ 60 then 26
  else if len ≤ 80 then 24
  else if len ≤ 100 then 22
  else if len ≤ 120 then 20
  else 18

/-- `BatchZBLGenerator.calculateNotesFontSize`. -/
def calculateNotesFontSize (text : String) : Nat :=
  let len := text.length
  if len ≤ 80 then 26
  else if len ≤ 120 then 24
  else if len ≤ 160 then 22
  else if len ≤ 200 then 20
  else if len ≤ 250 then 18
  else 16

/-- `BatchZBLGenerator.combineNotes`. -/
def combineNotes (forkInfo rearInfo : String) : String :=
  let f := jsTrim forkInfo
  let r := jsTrim rearInfo
  if f ≠ "" ∧ r ≠ "" then "F: " ++ f ++ " / R: " ++ r
  else if f ≠ "" then "F: " ++ f
  else if r ≠ "" then "R: " ++ r
  else ""

/-- `BatchZBLGenerator.prepareVariables`: default the raw columns, compute
the font sizes, and combine the notes.  Unlike `ZBLGenerator`, no ZPL
escaping is applied to any field. -/
def prepareVariables (rowData : Row) : Vars :=
  let BRAND_NAME := jsOr rowData.F "N/A"
  let MODEL_TYPE := jsOr rowData.G "N/A"
  let YEAR := jsOr rowData.H "N/A"
  let FORK_SPRING := jsOr rowData.I "N/A"
  let SHOCK_SPRING := jsOr rowData.Q "N/A"
  let FORKCODE := jsOr rowData.C "NONE"
  let SHOCKCODE := jsOr rowData.D "NONE"
  let COMBICODE := jsOr rowData.E "NONE"
  let OIL_TYPE := jsOr rowData.J "N/A"
  let OIL_LEVEL := jsOr rowData.K "N/A"
  let FORK_PRELOAD := jsOr rowData.L "N/A"
  let SHOCK_PRELOAD := jsOr rowData.R "N/A"
  let FORK_SAG := jsOr rowData.M "N/A"
  let SHOCK_SAG := jsOr rowData.S "N/A"
  let FORK_COMPRESSION := jsOr rowData.N "N/A"
  let SHOCK_COMPRESSION := jsOr rowData.T "N/A"
  let NOTES := combineNotes rowData.P rowData.V
  { BRAND_NAME := BRAND_NAME
    MODEL_TYPE := MODEL_TYPE
    YEAR := YEAR
    FORK_SPRING := FORK_SPRING
    SHOCK_SPRING := SHOCK_SPRING
    FORKCODE := FORKCODE
    SHOCKCODE := SHOCKCODE
    COMBICODE := COMBICODE
    OIL_TYPE := OIL_TYPE
    OIL_LEVEL := OIL_LEVEL
    FORK_PRELOAD := FORK_PRELOAD
    SHOCK_PRELOAD := SHOCK_PRELOAD
    FORK_SAG := FORK_SAG
    SHOCK_SAG := SHOCK_SAG
    FORK_COMPRESSION := FORK_COMPRESSION
    SHOCK_COMPRESSION := SHOCK_COMPRESSION
    NOTES := NOTES
    BRAND_FONT_SIZE := calculateBrandFontSize BRAND_NAME
    MODEL_FONT_SIZE := calculateModelFontSize MODEL_TYPE
    KIT_FONT_SIZE := calculateKitFontSize FORKCODE SHOCKCODE COMBICODE
    BRAND_FONT_SIZE_SMALL := calculateBrandFontSizeSmall BRAND_NAME
    MODEL_FONT_SIZE_SMALL := calculateModelFontSizeSmall MODEL_TYPE
    NOTES_FONT_SIZE := calculateNotesFontSize NOTES }

/-- The entries of the vars object in insertion order (used by
`replaceVariables` via `Object.entries`). -/
def varsEntries (v : Vars) : List (String × String) :=
  [("BRAND_NAME", v.BRAND_NAME), ("MODEL_TYPE", v.MODEL_TYPE),
   ("YEAR", v.YEAR), ("FORK_SPRING", v.FORK_SPRING),
   ("SHOCK_SPRING", v.SHOCK_SPRING), ("FORKCODE", v.FORKCODE),
   ("SHOCKCODE", v.SHOCKCODE), ("COMBICODE", v.COMBICODE),
   ("OIL_TYPE", v.OIL_TYPE), ("OIL_LEVEL", v.OIL_LEVEL),
   ("FORK_PRELOAD", v.FORK_PRELOAD), ("SHOCK_PRELOAD", v.SHOCK_PRELOAD),
   ("FORK_SAG", v.FORK_SAG), ("SHOCK_SAG", v.SHOCK_SAG),
   ("FORK_COMPRESSION", v.FORK_COMPRESSION),
   ("SHOCK_COMPRESSION", v.SHOCK_COMPRESSION),
   ("BRAND_FONT_SIZE", toString v.BRAND_FONT_SIZE),
   ("MODEL_FONT_SIZE", toString v.MODEL_FONT_SIZE),
   ("KIT_FONT_SIZE", toString v.KIT_FONT_SIZE),
   ("BRAND_FONT_SIZE_SMALL", toString v.BRAND_FONT_SIZE_SMALL),
   ("MODEL_FONT_SIZE_SMALL", toString v.MODEL_FONT_SIZE_SMALL),
   ("NOTES", v.NOTES), ("NOTES_FONT_SIZE", toString v.NOTES_FONT_SIZE)]

/-- Left-to-right non-overlapping replacement of the pattern
`n0 :: ntail` by `repl` (the semantics of a global JS string replace; the
replacement text is not rescanned). -/
def replaceGo (n0 : Char) (ntail repl : List Char) : List Char → List Char
  | [] => []
  | c :: rest =>
    if c = n0 && startsWithChars rest ntail then
      repl ++ replaceGo n0 ntail repl (rest.drop ntail.length)
    else
      c :: replaceGo n0 ntail repl rest
termination_by l => l.length
decreasing_by
  · simp only [List.length_drop, List.length_cons]; omega
  · simp only [List.length_cons]; omega

/-- Replace every occurrence of `pattern` in `s` by `repl` (JS
`s.replace(new RegExp(escaped pattern, g), repl)`; the patterns built by
`replaceVariables` are never empty, so the empty-pattern branch is
unreachable). -/
def stringReplaceAll (s pattern repl : String) : String :=
  match pattern.toList with
  | [] => s
  | n0 :: ntail => String.mk (replaceGo n0 ntail repl.toList s.toList)

/-- `BatchZBLGenerator.replaceVariables`: replace every occurrence of each
variable's brace-wrapped placeholder with its value. -/
def replaceVariables (template : String) (vars : List (String × String)) : String :=
  vars.foldl
    (fun zpl kv => stringReplaceAll zpl ("\x7b" ++ kv.1 ++ "\x7d") kv.2)
    template

/-- `BatchZBLGenerator.generateStickerSet`: look up the sticker rule for the
kit type (a crash for unrecognized kit types, modelled as `none`), prepare
the variable set once, then push the required number of rendered copies.
The source's quantity loop is rendered as `replicate`/`flatten`: for each of
the `quantity` iterations it pushes `rules.big` big copies, then
`rules.smallFork` small-fork copies followed by `rules.smallShock`
small-shock copies. -/
def generateStickerSet (templates : Templates) (kitType : String)
    (rowData : Row) (quantity : Nat) : Option StickerSet :=
  (stickerRules kitType).map fun rules =>
    let vars := varsEntries (prepareVariables rowData)
    let bigOne := replaceVariables templates.big vars
    let forkOne := replaceVariables templates.smallFork vars
    let shockOne := replaceVariables templates.smallShock vars
    { bigZpl := (List.replicate quantity (List.replicate rules.big bigOne)).flatten
      smallZpl := (List.replicate quantity
        (List.replicate rules.smallFork forkOne ++
         List.replicate rules.smallShock shockOne)).flatten
      itemCounts :=
        { big := rules.big * quantity
          smallFork := rules.smallFork * quantity
          smallShock := rules.smallShock * quantity } }

/-- The item loop of `BatchZBLGenerator.generateBatch`: accumulate the big
and small sticker lists and the running counts across the cart items. -/
def generateBatchAux (templates : Templates) :
    List CartItem → Option (List String × List String × ItemCounts)
  | [] => some ([], [], { big := 0, smallFork := 0, smallShock := 0 })
  | item :: rest => do
    let set ← generateStickerSet templates item.kitType item.rowData item.quantity
    let r ← generateBatchAux templates rest
    some (set.bigZpl ++ r.1, set.smallZpl ++ r.2.1,
      { big := set.itemCounts.big + r.2.2.big
        smallFork := set.itemCounts.smallFork + r.2.2.smallFork
        smallShock := set.itemCounts.smallShock + r.2.2.smallShock })

/-- `BatchZBLGenerator.generateBatch`: process every cart item, join each
sticker list with a blank-line separator, and report the aggregate counts
together with `totalSmall` and `grandTotal`. -/
def generateBatch (templates : Templates) (cartItems : List CartItem) :
    Option BatchOutput :=
  (generateBatchAux templates cartItems).map fun r =>
    { bigZpl := String.intercalate "\n\n" r.1
      smallZpl := String.intercalate "\n\n" r.2.1
      counts :=
        { big := r.2.2.big
          smallFork := r.2.2.smallFork
          smallShock := r.2.2.smallShock
          totalSmall := r.2.2.smallFork + r.2.2.smallShock
          grandTotal := r.2.2.big + r.2.2.smallFork + r.2.2.smallShock } }

end BatchZBLGenerator

/-- Sticker breakdown of one cart item (`calculateItemStickers`). -/
structure ItemStickers where
  big : Nat
  smallFork : Nat
  smallShock : Nat
  total : Nat
deriving Repr, DecidableEq

/-- Result of `Cart.getCartSummary` in `cart.js` (which has no `totalJobs`). -/
structure Summary where
  totalItems : Nat
  totalBig : Nat
  totalSmallFork : Nat
  totalSmallShock : Nat
  totalSmall : Nat
  grandTotal : Nat
deriving Repr, DecidableEq

/-- Result of `Cart.getCartSummary` in `error-handler.js` (adds `totalJobs`). -/
structure SummaryEH where
  totalItems : Nat
  totalJobs : Nat
  totalBig : Nat
  totalSmallFork : Nat
  totalSmallShock : Nat
  totalSmall : Nat
  grandTotal : Nat
deriving Repr, DecidableEq

/- The `Cart` namespace embeds the `Cart` class of `cart.js`. -/
namespace Cart

/-- The module-level `STICKER_RULES` table of `cart.js`; a JS object lookup,
`none` for an unrecognized kit type. -/
def STICKER_RULES (kitType : String) : Option StickerRule :=
  if kitType = "fork" then some { big := 1, smallFork := 2, smallShock := 0 }
  else if kitType = "shock" then some { big := 1, smallFork := 0, smallShock := 1 }
  else if kitType = "combi" then some { big := 1, smallFork := 2, smallShock := 1 }
  else none

/-- `Cart.getStickerRules` (static, `cart.js`): the table row, falling back
to the fork rule for an unrecognized kit type. -/
def getStickerRules (kitType : String) : StickerRule :=
  (STICKER_RULES kitType).getD { big := 1, smallFork := 2, smallShock := 0 }

/-- `Cart.calculateItemStickers` (`cart.js`): no kit-type fallback, so an
unrecognized kit type crashes (`none`). -/
def calculateItemStickers (item : CartItem) : Option ItemStickers :=
  (STICKER_RULES item.kitType).map fun rules =>
    { big := rules.big * item.quantity
      smallFork := rules.smallFork * item.quantity
      smallShock := rules.smallShock * item.quantity
      total := (rules.big + rules.smallFork + rules.smallShock) * item.quantity }

/-- The accumulation loop of `Cart.getCartSummary` (`cart.js`): sum the
big/small-fork/small-shock breakdowns over the items; a crash on one item
aborts the whole summary. -/
def getCartSummaryAux : List CartItem → Option (Nat × Nat × Nat)
  | [] => some (0, 0, 0)
  | item :: rest => do
    let stickers ← calculateItemStickers item
    let r ← getCartSummaryAux rest
    some (stickers.big + r.1, stickers.smallFork + r.2.1, stickers.smallShock + r.2.2)

/-- `Cart.getCartSummary` (`cart.js`). -/
def getCartSummary (items : List CartItem) : Option Summary :=
  (getCartSummaryAux items).map fun t =>
    { totalItems := items.length
      totalBig := t.1
      totalSmallFork := t.2.1
      totalSmallShock := t.2.2
      totalSmall := t.2.1 + t.2.2
      grandTotal := t.1 + t.2.1 + t.2.2 }

/-- `Cart.notifyListeners` (`cart.js`): plain `forEach(cb => cb())` with no
try/catch, so a throwing listener stops the loop and the error propagates.
Returns the ids invoked (the throwing one included) and whether an error
escaped. -/
def notifyListeners : List Listener → List Nat × Bool
  | [] => ([], false)
  | l :: rest =>
    if l.throws then ([l.id], true)
    else
      let r := notifyListeners rest
      (l.id :: r.1, r.2)

/-- `Cart.addToCart` (`cart.js`): no validation and no clamping; the item is
stored with the requested quantity as given.  `rowData['Product Code']` and
`rowData['Product Name']` are absent from the lettered-column rows, so the
stored strings are empty. -/
def addToCart (st : CartState) (rowData : Row) (kitType : String)
    (quantity : Nat) : CartItem × MutResult :=
  let item : CartItem :=
    { id := st.nextId, rowData := rowData, kitType := kitType
      quantity := quantity, productCode := "", productName := "" }
  let notif := notifyListeners st.listeners
  (item,
    { state := { items := st.items ++ [item], nextId := st.nextId + 1
                 listeners := st.listeners }
      changed := true, invoked := notif.1, threw := notif.2 })

/-- `Cart.removeFromCart` (`cart.js`): filter the item out; notify only when
the length actually decreased. -/
def removeFromCart (st : CartState) (itemId : Nat) : MutResult :=
  let remaining := st.items.filter fun item => item.id ≠ itemId
  if remaining.length < st.items.length then
    let notif := notifyListeners st.listeners
    { state := { st with items := remaining }
      changed := true, invoked := notif.1, threw := notif.2 }
  else
    { state := st, changed := false, invoked := [], threw := false }

/-- Replace the quantity of the first item with the given id (`items.find`
followed by in-place mutation). -/
def setQuantityFirst (itemId newQuantity : Nat) :
    List CartItem → Option (List CartItem)
  | [] => none
  | item :: rest =>
    if item.id = itemId then some ({ item with quantity := newQuantity } :: rest)
    else (setQuantityFirst itemId newQuantity rest).map (item :: ·)

/-- `Cart.updateQuantity` (`cart.js`): rejects quantities below 1 outright
and otherwise stores the new quantity unclamped. -/
def updateQuantity (st : CartState) (itemId newQuantity : Nat) : MutResult :=
  if newQuantity < 1 then
    { state := st, changed := false, invoked := [], threw := false }
  else
    match setQuantityFirst itemId newQuantity st.items with
    | some items =>
      let notif := notifyListeners st.listeners
      { state := { st with items := items }
        changed := true, invoked := notif.1, threw := notif.2 }
    | none => { state := st, changed := false, invoked := [], threw := false }

/-- `Cart.clearCart` (`cart.js`). -/
def clearCart (st : CartState) : MutResult :=
  let notif := notifyListeners st.listeners
  { state := { st with items := [] }
    changed := true, invoked := notif.1, threw := notif.2 }

end Cart

/- The `CartEH` namespace embeds the hardened `Cart` class of
`error-handler.js` (the second of the two parallel cart designs). -/
namespace CartEH

/-- `CART_CONFIG.MAX_ITEMS`. -/
def MAX_ITEMS : Nat := 500

/-- `CART_CONFIG.MAX_ID`. -/
def MAX_ID : Nat := 999999

/-- `Cart.notifyListeners` (`error-handler.js`): each callback runs inside
its own try/catch, so every registered listener is invoked in registration
order regardless of earlier errors, and no error escapes. -/
def notifyListeners (listeners : List Listener) : List Nat :=
  listeners.map (·.id)

/-- `Cart.calculateItemStickers` (`error-handler.js`): an unrecognized kit
type falls back to `fork` before the table lookup (which therefore cannot
miss; the `getD` default is never reached). -/
def calculateItemStickers (item : CartItem) : ItemStickers :=
  let kitType := if SecurityUtils.validateKitType item.kitType then item.kitType else "fork"
  let rules := (Cart.STICKER_RULES kitType).getD { big := 1, smallFork := 2, smallShock := 0 }
  { big := rules.big * item.quantity
    smallFork := rules.smallFork * item.quantity
    smallShock := rules.smallShock * item.quantity
    total := (rules.big + rules.smallFork + rules.smallShock) * item.quantity }

/-- `Cart.getTotalJobs` (`error-handler.js`): sum of all quantities. -/
def getTotalJobs (items : List CartItem) : Nat :=
  items.foldl (fun total item => total + item.quantity) 0

/-- The accumulation loop of `Cart.getCartSummary` (`error-handler.js`);
total thanks to the kit-type fallback. -/
def getCartSummaryAux : List CartItem → Nat × Nat × Nat
  | [] => (0, 0, 0)
  | item :: rest =>
    let stickers := calculateItemStickers item
    let r := getCartSummaryAux rest
    (stickers.big + r.1, stickers.smallFork + r.2.1, stickers.smallShock + r.2.2)

/-- `Cart.getCartSummary` (`error-handler.js`). -/
def getCartSummary (items : List CartItem) : SummaryEH :=
  let t := getCartSummaryAux items
  { totalItems := items.length
    totalJobs := getTotalJobs items
    totalBig := t.1
    totalSmallFork := t.2.1
    totalSmallShock := t.2.2
    totalSmall := t.2.1 + t.2.2
    grandTotal := t.1 + t.2.1 + t.2.2 }

/-- `Cart.addToCart` (`error-handler.js`): validate the row data and the kit
type (rejecting with `none`), clamp the quantity, reject when the cart is
full, wrap the id counter past `MAX_ID`, and store the item (the deep clone
is the identity on immutable values).  `saveToStorage` is an external
persistence effect and is not modelled. -/
def addToCart (st : CartState) (rowData : Row) (kitType : String)
    (quantity : Nat) : Option CartItem × MutResult :=
  if ¬ SecurityUtils.validateRowData rowData then
    (none, { state := st, changed := false, invoked := [], threw := false })
  else if ¬ SecurityUtils.validateKitType kitType then
    (none, { state := st, changed := false, invoked := [], threw := false })
  else
    let finalQuantity := (SecurityUtils.validateQuantity quantity).clamped
    if st.items.length ≥ MAX_ITEMS then
      (none, { state := st, changed := false, invoked := [], threw := false })
    else
      let nextId := if st.nextId > MAX_ID then 1 else st.nextId
      let productCode :=
        if kitType = "fork" then jsOr rowData.C "N/A"
        else if kitType = "shock" then jsOr rowData.D "N/A"
        else if kitType = "combi" then jsOr rowData.E "N/A"
        else "N/A"
      let productName := jsOr (jsTrim (rowData.F ++ " " ++ rowData.G)) "N/A"
      let item : CartItem :=
        { id := nextId, rowData := rowData, kitType := kitType
          quantity := finalQuantity, productCode := productCode
          productName := productName }
      (some item,
        { state := { items := st.items ++ [item], nextId := nextId + 1
                     listeners := st.listeners }
          changed := true, invoked := notifyListeners st.listeners
          threw := false })

/-- `Cart.updateQuantity` (`error-handler.js`): clamp the new quantity with
the same `SecurityUtils.validateQuantity` rule as `addToCart`, then store it
on the first item with the given id. -/
def updateQuantity (st : CartState) (itemId newQuantity : Nat) : MutResult :=
  let finalQuantity := (SecurityUtils.validateQuantity newQuantity).clamped
  match Cart.setQuantityFirst itemId finalQuantity st.items with
  | some items =>
    { state := { st with items := items }
      changed := true, invoked := notifyListeners st.listeners, threw := false }
  | none => { state := st, changed := false, invoked := [], threw := false }

/-- `Cart.removeFromCart` (`error-handler.js`): filter the item out; notify
(with per-listener isolation) only when the length actually decreased.
`saveToStorage` is an external persistence effect and is not modelled. -/
def removeFromCart (st : CartState) (itemId : Nat) : MutResult :=
  let remaining := st.items.filter fun item => item.id ≠ itemId
  if remaining.length < st.items.length then
    { state := { st with items := remaining }
      changed := true, invoked := notifyListeners st.listeners, threw := false }
  else
    { state := st, changed := false, invoked := [], threw := false }

/-- `Cart.clearCart` (`error-handler.js`). -/
def clearCart (st : CartState) : MutResult :=
  { state := { st with items := [] }
    changed := true, invoked := notifyListeners st.listeners, threw := false }

end CartEH

namespace ProductSearch

/-- Whether a row matches a fuzzy query: the lowercased trimmed query is a
substring of the lowercased fork, shock or combi code (the filter predicate
of `ProductSearch.search`). -/
def fuzzyMatches (lowerQuery : String) (row : Row) : Bool :=
  stringIncludes (jsToLower row.C) lowerQuery ||
  stringIncludes (jsToLower row.D) lowerQuery ||
  stringIncludes (jsToLower row.E) lowerQuery

/-- `ProductSearch.search`: empty result for a query whose trimmed length is
below 2 (which subsumes the falsy-query guard), otherwise the matching rows
in catalog order, capped at 50. -/
def search (data : List Row) (query : String) : List Row :=
  if (jsTrim query).length < 2 then []
  else
    let lowerQuery := jsTrim (jsToLower query)
    (data.filter (fuzzyMatches lowerQuery)).take 50

/-- The row loop of `ProductSearch.searchExact`: first record with any
matching code field wins, fork code checked before shock code before combi
code on each record. -/
def searchExactLoop (normalized : String) : List Row → Option (Row × String)
  | [] => none
  | row :: rest =>
    if jsToUpper row.C = normalized then some (row, "fork")
    else if jsToUpper row.D = normalized then some (row, "shock")
    else if jsToUpper row.E = normalized then some (row, "combi")
    else searchExactLoop normalized rest

/-- `ProductSearch.searchExact`: `none` for a blank query, otherwise scan
the catalog with the trimmed uppercased query. -/
def searchExact (data : List Row) (query : String) : Option (Row × String) :=
  if (jsTrim query).length = 0 then none
  else searchExactLoop (jsToUpper (jsTrim query)) data

end ProductSearch

/-
  Theorems.
-/

/-- C5: each of the six font-sizing functions (in both generators, which
duplicate them) returns exactly the point size given by the spec's
threshold table, interpreted as: the first threshold whose maxLength is
greater than or equal to the text length wins, and if none matches the
last (smallest) size applies; in particular the brand-large role yields
50pt at length 25 and 40pt at length 26. -/
theorem font_sizes_match_spec_thresholds :
    (∀ t, ZBLGenerator.calculateBrandFontSize t =
      sizeFor [(25, 50), (40, 40), (60, 35), (80, 30)] 25 t) ∧
    (∀ t, ZBLGenerator.calculateModelFontSize t =
      sizeFor [(25, 50), (40, 40), (60, 32), (80, 26), (100, 22), (130, 20)] 18 t) ∧
    (∀ t, ZBLGenerator.calculateBrandFontSizeSmall t =
      sizeFor [(20, 35), (30, 30), (50, 25), (70, 22)] 18 t) ∧
    (∀ t, ZBLGenerator.calculateModelFontSizeSmall t =
      sizeFor [(20, 35), (30, 30), (50, 24), (70, 20), (90, 18), (120, 16)] 14 t) ∧
    (∀ f s c, ZBLGenerator.calculateKitFontSize f s c =
      sizeFor [(40, 28), (60, 26), (80, 24), (100, 22), (120, 20)] 18
        (ZBLGenerator.kitLine f s c)) ∧
    (∀ t, ZBLGenerator.calculateNotesFontSize t =
      sizeFor [(80, 26), (120, 24), (160, 22), (200, 20), (250, 18)] 16 t) ∧
    (∀ t, BatchZBLGenerator.calculateBrandFontSize t =
      sizeFor [(25, 50), (40, 40), (60, 35), (80, 30)] 25 t) ∧
    (∀ t, BatchZBLGenerator.calculateModelFontSize t =
      sizeFor [(25, 50), (40, 40), (60, 32), (80, 26), (100, 22), (130, 20)] 18 t) ∧
    (∀ t, BatchZBLGenerator.calculateBrandFontSizeSmall t =
      sizeFor [(20, 35), (30, 30), (50, 25), (70, 22)] 18 t) ∧
    (∀ t, BatchZBLGenerator.calculateModelFontSizeSmall t =
      sizeFor [(20, 35), (30, 30), (50, 24), (70, 20), (90, 18), (120, 16)] 14 t) ∧
    (∀ f s c, BatchZBLGenerator.calculateKitFontSize f s c =
      sizeFor [(40, 28), (60, 26), (80, 24), (100, 22), (120, 20)] 18
        (BatchZBLGenerator.kitLine f s c)) ∧
    (∀ t, BatchZBLGenerator.calculateNotesFontSize t =
      sizeFor [(80, 26), (120, 24), (160, 22), (200, 20), (250, 18)] 16 t) ∧
    ZBLGenerator.calculateBrandFontSize "AAAAAAAAAAAAAAAAAAAAAAAAA" = 50 ∧
    ZBLGenerator.calculateBrandFontSize "AAAAAAAAAAAAAAAAAAAAAAAAAA" = 40 :=
  ⟨fun _ => rfl, fun _ => rfl, fun _ => rfl, fun _ => rfl,
   fun _ _ _ => rfl, fun _ => rfl, fun _ => rfl, fun _ => rfl,
   fun _ => rfl, fun _ => rfl, fun _ _ _ => rfl, fun _ => rfl,
   by decide, by decide⟩

set_option maxHeartbeats 1600000 in
/-- C6: for each of the six sizing roles, a strictly longer text is never
assigned a larger point size than a shorter text of the same role (for the
kit role, the text is the formatted kit-info line). -/
theorem font_sizing_monotone :
    (∀ t1 t2 : String, t2.length < t1.length →
      ZBLGenerator.calculateBrandFontSize t1 ≤ ZBLGenerator.calculateBrandFontSize t2) ∧
    (∀ t1 t2 : String, t2.length < t1.length →
      ZBLGenerator.calculateModelFontSize t1 ≤ ZBLGenerator.calculateModelFontSize t2) ∧
    (∀ t1 t2 : String, t2.length < t1.length →
      ZBLGenerator.calculateBrandFontSizeSmall t1 ≤
        ZBLGenerator.calculateBrandFontSizeSmall t2) ∧
    (∀ t1 t2 : String, t2.length < t1.length →
      ZBLGenerator.calculateModelFontSizeSmall t1 ≤
        ZBLGenerator.calculateModelFontSizeSmall t2) ∧
    (∀ f1 s1 c1 f2 s2 c2 : String,
      (ZBLGenerator.kitLine f2 s2 c2).length < (ZBLGenerator.kitLine f1 s1 c1).length →
      ZBLGenerator.calculateKitFontSize f1 s1 c1 ≤
        ZBLGenerator.calculateKitFontSize f2 s2 c2) ∧
    (∀ t1 t2 : String, t2.length < t1.length →
      ZBLGenerator.calculateNotesFontSize t1 ≤ ZBLGenerator.calculateNotesFontSize t2) := by
  refine ⟨?_, ?_, ?_, ?_, ?_, ?_⟩
  · intro t1 t2 h
    simp only [ZBLGenerator.calculateBrandFontSize]
    split_ifs <;> omega
  · intro t1 t2 h
    simp only [ZBLGenerator.calculateModelFontSize]
    split_ifs <;> omega
  · intro t1 t2 h
    simp only [ZBLGenerator.calculateBrandFontSizeSmall]
    split_ifs <;> omega
  · intro t1 t2 h
    simp only [ZBLGenerator.calculateModelFontSizeSmall]
    split_ifs <;> omega
  · intro f1 s1 c1 f2 s2 c2 h
    simp only [ZBLGenerator.calculateKitFontSize]
    split_ifs <;> omega
  · intro t1 t2 h
    simp only [ZBLGenerator.calculateNotesFontSize]
    split_ifs <;> omega

/-- Witness for C6: concrete instances of all six monotonicity conjuncts at
strictly lengthening inputs. -/
theorem font_sizing_monotone_witness :
    ZBLGenerator.calculateBrandFontSize "ab" ≤ ZBLGenerator.calculateBrandFontSize "a" ∧
    ZBLGenerator.calculateModelFontSize "ab" ≤ ZBLGenerator.calculateModelFontSize "a" ∧
    ZBLGenerator.calculateBrandFontSizeSmall "ab" ≤
      ZBLGenerator.calculateBrandFontSizeSmall "a" ∧
    ZBLGenerator.calculateModelFontSizeSmall "ab" ≤
      ZBLGenerator.calculateModelFontSizeSmall "a" ∧
    ZBLGenerator.calculateKitFontSize "ab" "x" "y" ≤
      ZBLGenerator.calculateKitFontSize "a" "x" "y" ∧
    ZBLGenerator.calculateNotesFontSize "ab" ≤ ZBLGenerator.calculateNotesFontSize "a" :=
  ⟨font_sizing_monotone.1 "ab" "a" (by decide),
   font_sizing_monotone.2.1 "ab" "a" (by decide),
   font_sizing_monotone.2.2.1 "ab" "a" (by decide),
   font_sizing_monotone.2.2.2.1 "ab" "a" (by decide),
   font_sizing_monotone.2.2.2.2.1 "ab" "x" "y" "a" "x" "y" (by decide),
   font_sizing_monotone.2.2.2.2.2 "ab" "a" (by decide)⟩

/-- C7: the end-to-end Harley scenario: the kit-info line built from the
three codes is exactly the expected 90-character string, the kit font size
computed by the batch generator for that record is 22, and combi expansion
at quantity 1 yields 1 big, 2 small-fork and 1 small-shock sticker. -/
theorem end_to_end_harley_scenario :
    BatchZBLGenerator.kitLine "SP-HD14-SSA001REV" "SP-HD14-SSD001REV" "SP-HD14-SSE001REV" =
      "FORKKIT: SP-HD14-SSA001REV --- SHOCKKIT: SP-HD14-SSD001REV --- COMBIKIT: SP-HD14-SSE001REV" ∧
    ("FORKKIT: SP-HD14-SSA001REV --- SHOCKKIT: SP-HD14-SSD001REV --- COMBIKIT: SP-HD14-SSE001REV" : String).length = 90 ∧
    (BatchZBLGenerator.prepareVariables
      { C := "SP-HD14-SSA001REV", D := "SP-HD14-SSD001REV", E := "SP-HD14-SSE001REV",
        F := "HARLEY DAVIDSON", G := "FXDX SUPER GLIDE SPORT" }).KIT_FONT_SIZE = 22 ∧
    (∀ templates, (BatchZBLGenerator.generateStickerSet templates "combi"
      { C := "SP-HD14-SSA001REV", D := "SP-HD14-SSD001REV", E := "SP-HD14-SSE001REV",
        F := "HARLEY DAVIDSON", G := "FXDX SUPER GLIDE SPORT" } 1).map (·.itemCounts) =
      some { big := 1, smallFork := 2, smallShock := 1 }) :=
  ⟨rfl, rfl, rfl, fun _ => rfl⟩

/-- The truthiness-guarded escape equals the plain escape: escaping the
empty string is the identity. -/
lemma escTruthy_eq (s : String) : escTruthy s = SecurityUtils.escapeZpl s := by
  unfold escTruthy
  split_ifs with h
  · subst h; rfl
  · rfl

/-- C2: in `ZBLGenerator.prepareVariables` every text-valued variable of the
returned set is the ZPL-escaped form of the defaulted raw field, and every
font size is computed from the defaulted, unescaped text (never from the
escaped form).  `BatchZBLGenerator.prepareVariables`, by contrast, applies
no escaping at all: at the record with brand `^A` it returns the brand
unescaped, violating the claim (its escaped form would be `\^A`). -/
theorem prepareVariables_escapes_after_sizing :
    (∀ rowData : Row,
      (ZBLGenerator.prepareVariables rowData).BRAND_NAME =
        SecurityUtils.escapeZpl (jsOr rowData.F "N/A") ∧
      (ZBLGenerator.prepareVariables rowData).MODEL_TYPE =
        SecurityUtils.escapeZpl (jsOr rowData.G "N/A") ∧
      (ZBLGenerator.prepareVariables rowData).YEAR =
        SecurityUtils.escapeZpl (jsOr rowData.H "N/A") ∧
      (ZBLGenerator.prepareVariables rowData).FORK_SPRING =
        SecurityUtils.escapeZpl (jsOr rowData.I "N/A") ∧
      (ZBLGenerator.prepareVariables rowData).SHOCK_SPRING =
        SecurityUtils.escapeZpl (jsOr rowData.Q "N/A") ∧
      (ZBLGenerator.prepareVariables rowData).FORKCODE =
        SecurityUtils.escapeZpl (jsOr rowData.C "NONE") ∧
      (ZBLGenerator.prepareVariables rowData).SHOCKCODE =
        SecurityUtils.escapeZpl (jsOr rowData.D "NONE") ∧
      (ZBLGenerator.prepareVariables rowData).COMBICODE =
        SecurityUtils.escapeZpl (jsOr rowData.E "NONE") ∧
      (ZBLGenerator.prepareVariables rowData).OIL_TYPE =
        SecurityUtils.escapeZpl (jsOr rowData.J "N/A") ∧
      (ZBLGenerator.prepareVariables rowData).OIL_LEVEL =
        SecurityUtils.escapeZpl (jsOr rowData.K "N/A") ∧
      (ZBLGenerator.prepareVariables rowData).FORK_PRELOAD =
        SecurityUtils.escapeZpl (jsOr rowData.L "N/A") ∧
      (ZBLGenerator.prepareVariables rowData).SHOCK_PRELOAD =
        SecurityUtils.escapeZpl (jsOr rowData.R "N/A") ∧
      (ZBLGenerator.prepareVariables rowData).FORK_SAG =
        SecurityUtils.escapeZpl (jsOr rowData.M "N/A") ∧
      (ZBLGenerator.prepareVariables rowData).SHOCK_SAG =
        SecurityUtils.escapeZpl (jsOr rowData.S "N/A") ∧
      (ZBLGenerator.prepareVariables rowData).FORK_COMPRESSION =
        SecurityUtils.escapeZpl (jsOr rowData.N "N/A") ∧
      (ZBLGenerator.prepareVariables rowData).SHOCK_COMPRESSION =
        SecurityUtils.escapeZpl (jsOr rowData.T "N/A") ∧
      (ZBLGenerator.prepareVariables rowData).NOTES =
        SecurityUtils.escapeZpl (ZBLGenerator.combineNotes rowData.P rowData.V) ∧
      (ZBLGenerator.prepareVariables rowData).BRAND_FONT_SIZE =
        ZBLGenerator.calculateBrandFontSize (jsOr rowData.F "N/A") ∧
      (ZBLGenerator.prepareVariables rowData).MODEL_FONT_SIZE =
        ZBLGenerator.calculateModelFontSize (jsOr rowData.G "N/A") ∧
      (ZBLGenerator.prepareVariables rowData).KIT_FONT_SIZE =
        ZBLGenerator.calculateKitFontSize (jsOr rowData.C "NONE")
          (jsOr rowData.D "NONE") (jsOr rowData.E "NONE") ∧
      (ZBLGenerator.prepareVariables rowData).BRAND_FONT_SIZE_SMALL =
        ZBLGenerator.calculateBrandFontSizeSmall (jsOr rowData.F "N/A") ∧
      (ZBLGenerator.prepareVariables rowData).MODEL_FONT_SIZE_SMALL =
        ZBLGenerator.calculateModelFontSizeSmall (jsOr rowData.G "N/A") ∧
      (ZBLGenerator.prepareVariables rowData).NOTES_FONT_SIZE =
        ZBLGenerator.calculateNotesFontSize
          (ZBLGenerator.combineNotes rowData.P rowData.V)) ∧
    (BatchZBLGenerator.prepareVariables { C := "X", F := "^A", G := "M" }).BRAND_NAME =
      "^A" ∧
    SecurityUtils.escapeZpl "^A" = "\\^A" ∧
    ("^A" : String) ≠ "\\^A" := by
  refine ⟨fun rowData => ?_, rfl, by decide, by decide⟩
  refine ⟨escTruthy_eq _, escTruthy_eq _, escTruthy_eq _, escTruthy_eq _,
    escTruthy_eq _, escTruthy_eq _, escTruthy_eq _, escTruthy_eq _,
    escTruthy_eq _, escTruthy_eq _, escTruthy_eq _, escTruthy_eq _,
    escTruthy_eq _, escTruthy_eq _, escTruthy_eq _, escTruthy_eq _,
    escTruthy_eq _, rfl, rfl, rfl, rfl, rfl, rfl⟩

/-- Records with no matching code field are skipped by the exact-search
scan. -/
lemma searchExactLoop_append (normalized : String) (pre rest : List Row)
    (h : ∀ row ∈ pre, jsToUpper row.C ≠ normalized ∧
      jsToUpper row.D ≠ normalized ∧ jsToUpper row.E ≠ normalized) :
    ProductSearch.searchExactLoop normalized (pre ++ rest) =
      ProductSearch.searchExactLoop normalized rest := by
  induction pre with
  | nil => rfl
  | cons p ps ih =>
    obtain ⟨h1, h2, h3⟩ := h p (by simp)
    simp only [List.cons_append, ProductSearch.searchExactLoop,
      if_neg h1, if_neg h2, if_neg h3]
    exact ih fun row hrow => h row (by simp [hrow])

/-- C3: for a non-blank query, exact search scans records in catalog order
comparing the (trimmed, uppercased) query for equality against fork code,
then shock code, then combi code of each record; the first record with any
matching field is returned, with the kit type determined by the first
matching field of that record — regardless of any matches further down the
catalog. -/
theorem searchExact_first_record_priority (pre suf : List Row) (r : Row)
    (query : String)
    (hq : (jsTrim query).length ≠ 0)
    (hpre : ∀ row ∈ pre,
      jsToUpper row.C ≠ jsToUpper (jsTrim query) ∧
      jsToUpper row.D ≠ jsToUpper (jsTrim query) ∧
      jsToUpper row.E ≠ jsToUpper (jsTrim query))
    (hr : jsToUpper r.C = jsToUpper (jsTrim query) ∨
      jsToUpper r.D = jsToUpper (jsTrim query) ∨
      jsToUpper r.E = jsToUpper (jsTrim query)) :
    ProductSearch.searchExact (pre ++ r :: suf) query =
      some (r,
        if jsToUpper r.C = jsToUpper (jsTrim query) then "fork"
        else if jsToUpper r.D = jsToUpper (jsTrim query) then "shock"
        else "combi") := by
  unfold ProductSearch.searchExact
  rw [if_neg hq, searchExactLoop_append _ pre _ hpre]
  simp only [ProductSearch.searchExactLoop]
  split_ifs <;> first | rfl | (exfalso; tauto)

/-- Witness for C3: the catalog where the first record's fork code and the
second record's shock code both equal the query (case-insensitively): the
earlier record is returned with kit type fork. -/
theorem searchExact_first_record_priority_witness :
    ProductSearch.searchExact
      [{ C := "X" }, { D := "x" }] "x" = some ({ C := "X" }, "fork") := by
  have h := searchExact_first_record_priority [] [{ D := "x" }] { C := "X" } "x"
    (by decide) (by simp) (Or.inl (by decide))
  simp only [List.nil_append] at h
  exact h

/-- C8: fuzzy search returns the empty list when the trimmed query is
shorter than 2 characters; otherwise it returns exactly the records whose
fork, shock or combi code contains the query case-insensitively, in catalog
order, truncated to at most 50 results — the result is always a sublist of
the catalog (order preserved) of length at most 50. -/
theorem fuzzy_search_characterization :
    (∀ (data : List Row) (query : String), (jsTrim query).length < 2 →
      ProductSearch.search data query = []) ∧
    (∀ (data : List Row) (query : String), ¬ (jsTrim query).length < 2 →
      ProductSearch.search data query =
        (data.filter
          (ProductSearch.fuzzyMatches (jsTrim (jsToLower query)))).take 50) ∧
    (∀ (data : List Row) (query : String),
      List.Sublist (ProductSearch.search data query) data) ∧
    (∀ (data : List Row) (query : String),
      (ProductSearch.search data query).length ≤ 50) := by
  refine ⟨?_, ?_, ?_, ?_⟩
  · intro data query h
    simp only [ProductSearch.search, if_pos h]
  · intro data query h
    simp only [ProductSearch.search, if_neg h]
  · intro data query
    simp only [ProductSearch.search]
    split_ifs
    · exact List.nil_sublist data
    · exact List.Sublist.trans (List.take_sublist _ _) (List.filter_sublist _)
  · intro data query
    simp only [ProductSearch.search]
    split_ifs
    · simp
    · exact List.length_take_le _ _

/-- Witness for C8: a one-character query yields no results; the two-record
catalog queried with a substring of the first record's fork code yields
exactly that record. -/
theorem fuzzy_search_characterization_witness :
    ProductSearch.search [{ C := "ABC" }] "a" = [] ∧
    ProductSearch.search [{ C := "ABC" }, { D := "xy" }] "ab" = [{ C := "ABC" }] := by
  constructor
  · exact fuzzy_search_characterization.1 [{ C := "ABC" }] "a" (by decide)
  · exact (fuzzy_search_characterization.2.1 [{ C := "ABC" }, { D := "xy" }] "ab"
      (by decide)).trans (by decide)

/-- An unrecognized kit type is none of the three recognized names. -/
lemma not_validateKitType (kt : String)
    (h : SecurityUtils.validateKitType kt = false) :
    ¬ kt = "fork" ∧ ¬ kt = "shock" ∧ ¬ kt = "combi" := by
  have h2 := h
  simp only [SecurityUtils.validateKitType, Bool.or_eq_false_iff,
    beq_eq_false_iff_ne, ne_eq] at h2
  exact ⟨h2.1.1, h2.1.2, h2.2⟩

/-- C10: a cart item with an unrecognized kit type is silently counted by
the hardened cart with the fork rule (1 big, 2 small-fork, 0 small-shock
per unit) — both by `calculateItemStickers` and, therefore, by
`getCartSummary`, and likewise by the static `getStickerRules` fallback —
even though the batch generator cannot expand such an item at all. -/
theorem invalid_kitType_counted_as_fork (item : CartItem)
    (h : SecurityUtils.validateKitType item.kitType = false) :
    CartEH.calculateItemStickers item =
      { big := item.quantity, smallFork := 2 * item.quantity,
        smallShock := 0, total := 3 * item.quantity } ∧
    Cart.getStickerRules item.kitType =
      { big := 1, smallFork := 2, smallShock := 0 } ∧
    CartEH.getCartSummary [item] =
      { totalItems := 1, totalJobs := item.quantity, totalBig := item.quantity,
        totalSmallFork := 2 * item.quantity, totalSmallShock := 0,
        totalSmall := 2 * item.quantity, grandTotal := 3 * item.quantity } ∧
    (∀ templates, BatchZBLGenerator.generateStickerSet templates item.kitType
      item.rowData item.quantity = none) := by
  obtain ⟨h1, h2, h3⟩ := not_validateKitType item.kitType h
  have e1 : CartEH.calculateItemStickers item =
      { big := item.quantity, smallFork := 2 * item.quantity,
        smallShock := 0, total := 3 * item.quantity } := by
    simp only [CartEH.calculateItemStickers, h, Bool.false_eq_true, if_false,
      Cart.STICKER_RULES]
    norm_num [ItemStickers.mk.injEq]
  refine ⟨e1, ?_, ?_, ?_⟩
  · simp [Cart.getStickerRules, Cart.STICKER_RULES, h1, h2, h3]
  · simp only [CartEH.getCartSummary, CartEH.getCartSummaryAux,
      CartEH.getTotalJobs, e1, List.foldl, List.length_cons, List.length_nil]
    norm_num [SummaryEH.mk.injEq]
    omega
  · intro templates
    simp [BatchZBLGenerator.generateStickerSet, BatchZBLGenerator.stickerRules,
      h1, h2, h3]

/-- Witness for C10: a quantity-3 item with kit type `banana` is counted
with the fork rule. -/
theorem invalid_kitType_counted_as_fork_witness :
    CartEH.calculateItemStickers
      { id := 1, rowData := {}, kitType := "banana", quantity := 3 } =
      { big := 3, smallFork := 6, smallShock := 0, total := 9 } := by
  simpa using (invalid_kitType_counted_as_fork
    { id := 1, rowData := {}, kitType := "banana", quantity := 3 } (by decide)).1

/-- The two copies of the sticker-rule table (module-level in `cart.js`,
constructor field in `batch-generator.js`) are identical. -/
lemma stickerRules_eq_cart (kitType : String) :
    BatchZBLGenerator.stickerRules kitType = Cart.STICKER_RULES kitType := rfl

/-- A recognized kit type has a row in the sticker-rule table. -/
lemma valid_kitType_rules (kitType : String)
    (h : SecurityUtils.validateKitType kitType = true) :
    ∃ r, Cart.STICKER_RULES kitType = some r := by
  simp only [SecurityUtils.validateKitType, Bool.or_eq_true, beq_iff_eq] at h
  rcases h with (h | h) | h <;> subst h <;> exact ⟨_, rfl⟩

/-- The cart summary accumulator and the batch generator accumulator agree
on the three per-variant counts for any list of recognized items. -/
lemma counts_agree_aux (templates : Templates) (items : List CartItem)
    (h : ∀ it ∈ items, SecurityUtils.validateKitType it.kitType = true) :
    ∃ t : Nat × Nat × Nat,
      Cart.getCartSummaryAux items = some t ∧
      (BatchZBLGenerator.generateBatchAux templates items).map (·.2.2) =
        some { big := t.1, smallFork := t.2.1, smallShock := t.2.2 } := by
  induction items with
  | nil => exact ⟨(0, 0, 0), rfl, rfl⟩
  | cons item rest ih =>
    obtain ⟨r, hr⟩ := valid_kitType_rules item.kitType (h item (by simp))
    obtain ⟨t, hsum, hbatch⟩ := ih fun it hit => h it (by simp [hit])
    obtain ⟨y, hy, hproj⟩ := Option.map_eq_some'.mp hbatch
    have hbr : BatchZBLGenerator.stickerRules item.kitType = some r := by
      rw [stickerRules_eq_cart]; exact hr
    refine ⟨(r.big * item.quantity + t.1, r.smallFork * item.quantity + t.2.1,
      r.smallShock * item.quantity + t.2.2), ?_, ?_⟩
    · simp [Cart.getCartSummaryAux, Cart.calculateItemStickers, hr, hsum]
    · simp [BatchZBLGenerator.generateBatchAux, BatchZBLGenerator.generateStickerSet,
        hbr, hy, hproj]

/-- C1: for a cart whose entries all carry a recognized kit type and a
positive quantity, the totals reported by `Cart.getCartSummary` equal the
corresponding counts returned by `BatchZBLGenerator.generateBatch` on the
same entries. -/
theorem cart_summary_matches_generateBatch_counts (templates : Templates)
    (items : List CartItem)
    (h : ∀ it ∈ items,
      SecurityUtils.validateKitType it.kitType = true ∧ 0 < it.quantity) :
    ∃ s b, Cart.getCartSummary items = some s ∧
      BatchZBLGenerator.generateBatch templates items = some b ∧
      s.totalBig = b.counts.big ∧
      s.totalSmallFork = b.counts.smallFork ∧
      s.totalSmallShock = b.counts.smallShock ∧
      s.totalSmall = b.counts.totalSmall ∧
      s.grandTotal = b.counts.grandTotal := by
  obtain ⟨t, hsum, hbatch⟩ :=
    counts_agree_aux templates items fun it hit => (h it hit).1
  obtain ⟨y, hy, hproj⟩ := Option.map_eq_some'.mp hbatch
  have hs : Cart.getCartSummary items =
      some ⟨items.length, t.1, t.2.1, t.2.2, t.2.1 + t.2.2, t.1 + t.2.1 + t.2.2⟩ := by
    simp [Cart.getCartSummary, hsum]
  have hb : BatchZBLGenerator.generateBatch templates items =
      some ⟨String.intercalate "\n\n" y.1, String.intercalate "\n\n" y.2.1,
        ⟨t.1, t.2.1, t.2.2, t.2.1 + t.2.2, t.1 + t.2.1 + t.2.2⟩⟩ := by
    simp [BatchZBLGenerator.generateBatch, hy, hproj]
  exact ⟨_, _, hs, hb, rfl, rfl, rfl, rfl, rfl⟩

/-- Witness for C1: a one-entry fork cart at quantity 2. -/
theorem cart_summary_matches_generateBatch_counts_witness :
    ∃ s b, Cart.getCartSummary
        [{ id := 1, rowData := { C := "X", F := "B", G := "M" },
           kitType := "fork", quantity := 2 }] = some s ∧
      BatchZBLGenerator.generateBatch { big := "", smallFork := "", smallShock := "" }
        [{ id := 1, rowData := { C := "X", F := "B", G := "M" },
           kitType := "fork", quantity := 2 }] = some b ∧
      s.totalBig = b.counts.big ∧
      s.totalSmallFork = b.counts.smallFork ∧
      s.totalSmallShock = b.counts.smallShock ∧
      s.totalSmall = b.counts.totalSmall ∧
      s.grandTotal = b.counts.grandTotal :=
  cart_summary_matches_generateBatch_counts
    { big := "", smallFork := "", smallShock := "" }
    [{ id := 1, rowData := { C := "X", F := "B", G := "M" },
       kitType := "fork", quantity := 2 }]
    (by decide)

/-- Counterexample for C4: `Cart.updateQuantity` of `cart.js` does not apply
the `[1, 99]` clamp rule: updating a stored item to quantity 150 stores 150
(not 99), and updating to quantity 0 is rejected outright, leaving the old
quantity 5 (instead of storing 1). -/
theorem cartjs_updateQuantity_no_clamp_counterexample :
    ((Cart.updateQuantity
      { items := [{ id := 1, rowData := {}, kitType := "fork", quantity := 5 }],
        nextId := 2, listeners := [] } 1 150).state.items.map (·.quantity)) = [150] ∧
    ([150] : List Nat) ≠ [99] ∧
    (Cart.updateQuantity
      { items := [{ id := 1, rowData := {}, kitType := "fork", quantity := 5 }],
        nextId := 2, listeners := [] } 1 0).changed = false ∧
    ((Cart.updateQuantity
      { items := [{ id := 1, rowData := {}, kitType := "fork", quantity := 5 }],
        nextId := 2, listeners := [] } 1 0).state.items.map (·.quantity)) = [5] ∧
    ([5] : List Nat) ≠ [1] := by
  refine ⟨by decide, by decide, by decide, by decide, by decide⟩

/-- C4 (amended): the hardened cart of `error-handler.js` clamps quantities
into `[1, 99]` in `addToCart` (150 stores 99, 0 stores 1) and its
`updateQuantity` applies the same clamp rule; the plain cart of `cart.js`
does not clamp in `updateQuantity`: it rejects quantities below 1 without
modifying the item and stores any quantity of at least 1 unchanged. -/
theorem quantity_clamp_amended :
    (∀ (st : CartState) (rowData : Row) (kitType : String) (q : Nat)
      (it : CartItem), (CartEH.addToCart st rowData kitType q).1 = some it →
      it.quantity = (SecurityUtils.validateQuantity q).clamped) ∧
    (SecurityUtils.validateQuantity 150).clamped = 99 ∧
    (SecurityUtils.validateQuantity 0).clamped = 1 ∧
    (∀ (it : CartItem) (nid : Nat) (ls : List Listener) (q : Nat),
      ((CartEH.updateQuantity { items := [it], nextId := nid, listeners := ls }
        it.id q).state.items.map (·.quantity)) =
        [(SecurityUtils.validateQuantity q).clamped]) ∧
    (∀ (it : CartItem) (nid : Nat) (ls : List Listener) (q : Nat), 1 ≤ q →
      ((Cart.updateQuantity { items := [it], nextId := nid, listeners := ls }
        it.id q).state.items.map (·.quantity)) = [q]) ∧
    (∀ (it : CartItem) (nid : Nat) (ls : List Listener) (q : Nat), q < 1 →
      (Cart.updateQuantity { items := [it], nextId := nid, listeners := ls }
        it.id q).changed = false ∧
      (Cart.updateQuantity { items := [it], nextId := nid, listeners := ls }
        it.id q).state = { items := [it], nextId := nid, listeners := ls }) := by
  refine ⟨?_, rfl, rfl, ?_, ?_, ?_⟩
  · intro st rowData kitType q it headd
    simp only [CartEH.addToCart] at headd
    split_ifs at headd
    all_goals (replace headd := Option.some.inj headd; subst headd; rfl)
  · intro it nid ls q
    simp [CartEH.updateQuantity, Cart.setQuantityFirst]
  · intro it nid ls q hq
    have hlt : ¬ q < 1 := by omega
    simp [Cart.updateQuantity, hlt, Cart.setQuantityFirst]
  · intro it nid ls q hq
    exact ⟨by simp [Cart.updateQuantity, hq], by simp [Cart.updateQuantity, hq]⟩

/-- Witness for C4 (amended): updating the same one-item cart to quantity
150 stores 99 under the hardened cart and 150 under the plain cart. -/
theorem quantity_clamp_amended_witness :
    ((CartEH.updateQuantity
      { items := [{ id := 1, rowData := {}, kitType := "fork", quantity := 5 }],
        nextId := 2, listeners := [] } 1 150).state.items.map (·.quantity)) = [99] ∧
    ((Cart.updateQuantity
      { items := [{ id := 1, rowData := {}, kitType := "fork", quantity := 5 }],
        nextId := 2, listeners := [] } 1 150).state.items.map (·.quantity)) = [150] ∧
    (SecurityUtils.validateQuantity 150).clamped = 99 ∧
    (SecurityUtils.validateQuantity 0).clamped = 1 := by
  refine ⟨?_, ?_, quantity_clamp_amended.2.1, quantity_clamp_amended.2.2.1⟩
  · exact (quantity_clamp_amended.2.2.2.1
      { id := 1, rowData := {}, kitType := "fork", quantity := 5 } 2 [] 150).trans
      (by decide)
  · exact quantity_clamp_amended.2.2.2.2.1
      { id := 1, rowData := {}, kitType := "fork", quantity := 5 } 2 [] 150 (by decide)

/-- Counterexample for C9: with a first listener that throws and a second
that does not, `clearCart` of `cart.js` invokes only the first listener
(the error propagates), so the second registered listener is skipped —
against the claim that a listener error never prevents later listeners. -/
theorem cartjs_notify_not_isolated_counterexample :
    (Cart.clearCart
      { items := [], nextId := 1,
        listeners := [{ id := 0, throws := true },
          { id := 1, throws := false }] }).invoked = [0] ∧
    (Cart.clearCart
      { items := [], nextId := 1,
        listeners := [{ id := 0, throws := true },
          { id := 1, throws := false }] }).threw = true ∧
    ([0] : List Nat) ≠ [0, 1] :=
  ⟨by decide, by decide, by decide⟩

/-- C9 (amended): the hardened cart of `error-handler.js` notifies every
registered listener in registration order with per-listener error isolation
on each mutating operation; the plain cart of `cart.js` notifies listeners
in registration order but without isolation: the listeners invoked are the
non-throwing prefix plus the first throwing listener (whose error then
propagates out of the mutating operation), and each mutating operation
routes its notification through `Cart.notifyListeners`. -/
theorem listener_notification_amended :
    (∀ ls : List Listener, CartEH.notifyListeners ls = ls.map (·.id)) ∧
    (∀ st : CartState, (CartEH.clearCart st).invoked = st.listeners.map (·.id) ∧
      (CartEH.clearCart st).threw = false) ∧
    (∀ (st : CartState) (rowData : Row) (kitType : String) (q : Nat),
      (CartEH.addToCart st rowData kitType q).2.changed = true →
      (CartEH.addToCart st rowData kitType q).2.invoked = st.listeners.map (·.id)) ∧
    (∀ (st : CartState) (itemId q : Nat),
      (CartEH.updateQuantity st itemId q).changed = true →
      (CartEH.updateQuantity st itemId q).invoked = st.listeners.map (·.id)) ∧
    (∀ (st : CartState) (itemId : Nat),
      (CartEH.removeFromCart st itemId).changed = true →
      (CartEH.removeFromCart st itemId).invoked = st.listeners.map (·.id)) ∧
    (∀ ls : List Listener, Cart.notifyListeners ls =
      ((ls.takeWhile (fun l => !l.throws)).map (·.id) ++
        (((ls.dropWhile (fun l => !l.throws)).head?.map (·.id)).toList),
       ls.any (·.throws))) ∧
    (∀ (st : CartState) (rowData : Row) (kitType : String) (q : Nat),
      (Cart.addToCart st rowData kitType q).2.invoked =
        (Cart.notifyListeners st.listeners).1 ∧
      (Cart.addToCart st rowData kitType q).2.threw =
        (Cart.notifyListeners st.listeners).2) ∧
    (∀ st : CartState, (Cart.clearCart st).invoked =
        (Cart.notifyListeners st.listeners).1 ∧
      (Cart.clearCart st).threw = (Cart.notifyListeners st.listeners).2) ∧
    (∀ (st : CartState) (itemId q : Nat),
      (Cart.updateQuantity st itemId q).changed = true →
      (Cart.updateQuantity st itemId q).invoked =
        (Cart.notifyListeners st.listeners).1) ∧
    (∀ (st : CartState) (itemId : Nat),
      (Cart.removeFromCart st itemId).changed = true →
      (Cart.removeFromCart st itemId).invoked =
        (Cart.notifyListeners st.listeners).1) := by
  refine ⟨fun ls => rfl, fun st => ⟨rfl, rfl⟩, ?_, ?_, ?_, ?_,
    fun st r k q => ⟨rfl, rfl⟩, fun st => ⟨rfl, rfl⟩, ?_, ?_⟩
  · intro st rowData kitType q h
    simp only [CartEH.addToCart] at h ⊢
    split_ifs at h ⊢ <;> simp_all [CartEH.notifyListeners]
  · intro st itemId q h
    simp only [CartEH.updateQuantity] at h ⊢
    rcases hm : Cart.setQuantityFirst itemId
        (SecurityUtils.validateQuantity q).clamped st.items with _ | items <;>
      simp_all [CartEH.notifyListeners]
  · intro st itemId h
    by_cases hlen :
      (st.items.filter fun item => !(decide (item.id = itemId))).length <
        st.items.length
    · simp [CartEH.removeFromCart, hlen, CartEH.notifyListeners]
    · simp [CartEH.removeFromCart, hlen] at h
  · intro ls
    induction ls with
    | nil => rfl
    | cons l rest ih =>
      rcases hl : l.throws with _ | _ <;>
        simp [Cart.notifyListeners, hl, ih, List.takeWhile, List.dropWhile]
  · intro st itemId q h
    by_cases hq : q < 1
    · simp [Cart.updateQuantity, hq] at h
    · rcases hm : Cart.setQuantityFirst itemId q st.items with _ | items
      · simp [Cart.updateQuantity, hq, hm] at h
      · simp [Cart.updateQuantity, hq, hm]
  · intro st itemId h
    by_cases hlen :
      (st.items.filter fun item => !(decide (item.id = itemId))).length <
        st.items.length
    · simp [Cart.removeFromCart, hlen]
    · simp [Cart.removeFromCart, hlen] at h

/-- Witness for C9 (amended): a concrete update on the plain cart routes
through its notification loop, and a concrete add and a concrete remove on
the hardened cart invoke both listeners even though the first one throws. -/
theorem listener_notification_amended_witness :
    (Cart.updateQuantity
      { items := [{ id := 1, rowData := {}, kitType := "fork", quantity := 5 }],
        nextId := 2,
        listeners := [{ id := 0, throws := false },
          { id := 1, throws := true }] } 1 7).invoked =
      (Cart.notifyListeners
        [{ id := 0, throws := false }, { id := 1, throws := true }]).1 ∧
    (CartEH.addToCart
      { items := [], nextId := 1,
        listeners := [{ id := 0, throws := true }, { id := 1, throws := false }] }
      { C := "X", F := "B", G := "M" } "fork" 1).2.invoked = [0, 1] ∧
    (CartEH.removeFromCart
      { items := [{ id := 1, rowData := {}, kitType := "fork", quantity := 5 }],
        nextId := 2,
        listeners := [{ id := 0, throws := true },
          { id := 1, throws := false }] } 1).invoked = [0, 1] := by
  refine ⟨?_, ?_, ?_⟩
  · exact listener_notification_amended.2.2.2.2.2.2.2.2.1
      { items := [{ id := 1, rowData := {}, kitType := "fork", quantity := 5 }],
        nextId := 2,
        listeners := [{ id := 0, throws := false }, { id := 1, throws := true }] }
      1 7 (by decide)
  · exact (listener_notification_amended.2.2.1
      { items := [], nextId := 1,
        listeners := [{ id := 0, throws := true }, { id := 1, throws := false }] }
      { C := "X", F := "B", G := "M" } "fork" 1 (by decide)).trans (by decide)
  · exact (listener_notification_amended.2.2.2.2.1
      { items := [{ id := 1, rowData := {}, kitType := "fork", quantity := 5 }],
        nextId := 2,
        listeners := [{ id := 0, throws := true }, { id := 1, throws := false }] }
      1 (by decide)).trans (by decide)
